import Mathlib

/-!
Shallow embedding of the `krizzy_ops_launch` ops-automation service
(`src/web/ops/worker.js`, `rei_dispo.js`, `govcon_subtrap.js`,
`discord_utils.js`, `twilio_utils.js`, and the Airtable helper module).

External I/O (HTTP fetches, Airtable/Twilio SDK calls) is modelled by
passing each call site's outcome as an explicit `Except String _`
parameter: `.ok` is the value the awaited promise resolves to and
`.error e` models the promise rejecting, where `e` stands for the JS
`String(err)` rendering of the thrown error.  Each embedded function
returns the list of network calls it issued (in order) together with
either `.ok result` (the function returned `result`) or `.error e`
(an exception escaped the function to its caller).
-/

namespace KrizzyOps

/-- Process environment: a map from variable name to its value; `none`
models an unset variable, mirroring `process.env[k] === undefined`. -/
def Env : Type := String → Option String

/-- JS `process.env.X || ''`: an unset variable and the empty string both
collapse to the empty string. -/
def envStr (env : Env) (k : String) : String :=
  (env k).getD ""

/-- Characters recognised as whitespace by the JS `String.prototype.trim`
calls in `getMissingEnv` (ASCII whitespace; the env values of interest
are ASCII). -/
def jsSpaceChars : List Char := [' ', '\t', '\n', '\r', '\x0b', '\x0c']

/-- JS `String(v).trim() === ''`: true iff every character is whitespace
(in particular true for the empty string). -/
def jsTrimEmpty (s : String) : Bool :=
  s.data.all (fun c => jsSpaceChars.contains c)

/-- One key's check inside `getMissingEnv`:
`!process.env[k] || String(process.env[k]).trim() === ''`. -/
def envBlank (env : Env) (k : String) : Bool :=
  match env k with
  | none => true
  | some s => jsTrimEmpty s

/-- Embeds `getMissingEnv(keys)` (identical in the Airtable helper and in
`twilio_utils.js`): the sublist of `keys` whose env value is absent or
blank. -/
def getMissingEnv (env : Env) (keys : List String) : List String :=
  keys.filter (fun k => envBlank env k)

/-- JS `Array.prototype.join(', ')`. -/
def joinCommaSpace : List String → String
  | [] => ""
  | [s] => s
  | s :: t :: rest => s ++ ", " ++ joinCommaSpace (t :: rest)

/-- Boolean substring test, embedding JS `String.prototype.includes` and
used to state what a notification message "contains". -/
def strContainsB (hay needle : String) : Bool :=
  decide (needle.data <:+: hay.data)

/-- One outbound network call, as issued by the embedded functions. -/
inductive NetCall where
  | webhookPost (url : String) (ts : Nat) (source : String)
  | listGet (url : String)
  | runPost (url : String)
  | discordPost (url : String) (content : String)
  | airtableSelect (table : String)
  | twilioAccountFetch (sid : String)
  | feedGet (url : String)
deriving Repr, DecidableEq

/-- An HTTP response as the code observes it (`node-fetch`): a status
code; `r.ok` is derived from it. -/
structure Response where
  status : Nat
deriving Repr, DecidableEq

/-- `node-fetch`'s `Response.ok`: status in the 2xx range. -/
def Response.okB (r : Response) : Bool :=
  decide (200 ≤ r.status) && decide (r.status < 300)

/-- Return value of `sendOpsMessage` in `discord_utils.js`; `none` fields
are keys absent from the returned JS object. -/
structure SendResult where
  ok : Bool
  status : Option Nat
  text : Option String
  error : Option String
deriving Repr, DecidableEq

/-- Embeds `sendOpsMessage(message)` from `src/web/ops/discord_utils.js`
(callers in this repository never pass the `options.webhookUrl`
override, so the destination is `process.env.DISCORD_WEBHOOK_OPS`).
`fetchOutcome` is the outcome of the `fetch(webhookUrl, ...)` call and
`textOutcome` the outcome of `resp.text()`; the code attaches
`.catch(() => '')` to the latter.  Note the `fetch` itself is not
wrapped in any `try`: its rejection escapes the function (`.error`). -/
def sendOpsMessage (env : Env) (message : String)
    (fetchOutcome : Except String Response) (textOutcome : Except String String) :
    List NetCall × Except String SendResult :=
  let webhookUrl := envStr env "DISCORD_WEBHOOK_OPS"
  if webhookUrl = "" then
    ([], .ok ⟨false, none, none, some "DISCORD_WEBHOOK_OPS is not set"⟩)
  else
    match fetchOutcome with
    | .error e => ([.discordPost webhookUrl message], .error e)
    | .ok resp =>
      if resp.okB then
        ([.discordPost webhookUrl message], .ok ⟨true, none, none, none⟩)
      else
        let text := match textOutcome with | .ok s => s | .error _ => ""
        ([.discordPost webhookUrl message], .ok ⟨false, some resp.status, some text, none⟩)

/-- One workflow object from the workflow engine's `GET /rest/workflows`
response: `name` may be absent (`w.name?.includes` then yields a falsy
value), `id` is used to build the run URL. -/
structure Workflow where
  name : Option String
  id : String
deriving Repr, DecidableEq

/-- JS `w.name?.includes(m)`: false when `name` is absent. -/
def wfNameIncludes (w : Workflow) (m : String) : Bool :=
  match w.name with
  | some n => strContainsB n m
  | none => false

/-- Return value of a flow trigger (`FlowTriggerResult` in the spec's
data model); `none` fields are keys absent from the JS object. -/
structure TriggerResult where
  ok : Bool
  status : Option Nat
  workflowId : Option String
  error : Option String
deriving Repr, DecidableEq

/-- Workflow selection in `triggerReiFlow` (`rei_dispo.js` line 22):
`data.find(name includes 'REI_DISPO') || data.find(name includes 'REI')`. -/
def findWorkflowRei (data : List Workflow) : Option Workflow :=
  (data.find? (fun w => wfNameIncludes w "REI_DISPO")).orElse
    (fun _ => data.find? (fun w => wfNameIncludes w "REI"))

/-- Workflow selection in `triggerGovConFlow` (`govcon_subtrap.js` line 35):
`data.find(name includes 'GOVCON') || data.find(name includes 'SUBTRAP')`. -/
def findWorkflowGovCon (data : List Workflow) : Option Workflow :=
  (data.find? (fun w => wfNameIncludes w "GOVCON")).orElse
    (fun _ => data.find? (fun w => wfNameIncludes w "SUBTRAP"))

/-- Modelled from the spec's words (for the refinement claim about
name matching): "find the first workflow whose name contains a
flow-specific marker substring" — first match in list order. -/
def specFirstContaining : List Workflow → String → Option Workflow
  | [], _ => none
  | w :: ws, m => if wfNameIncludes w m then some w else specFirstContaining ws m

/-- Modelled from the spec's words: try the primary marker first, then
the fallback marker. -/
def specSelectWorkflow (data : List Workflow) (primary fallback : String) : Option Workflow :=
  match specFirstContaining data primary with
  | some w => some w
  | none => specFirstContaining data fallback

/-- JS `(process.env.N8N_BASE_URL || '').replace(/\/$/, '')`: drop one
trailing slash if present. -/
def stripTrailingSlash (s : String) : String :=
  if s.data.getLast? = some '/' then ⟨s.data.dropLast⟩ else s

/-- Embeds the shared `catch (e)` block of both flow triggers: log,
`await sendOpsMessage(notifyMsg)`, then return `{ok:false, error}`.
If the notification itself rejects, that rejection escapes the trigger
(the `await` is inside the `catch` block, not guarded). `errStr` is
`String(e)` for the caught error, `trace` the calls already issued. -/
def triggerCatch (env : Env) (notifyMsg : String) (errStr : String)
    (trace : List NetCall)
    (discordOutcome : Except String Response) (discordTextOutcome : Except String String) :
    List NetCall × Except String TriggerResult :=
  let sent := sendOpsMessage env notifyMsg discordOutcome discordTextOutcome
  match sent.2 with
  | .error e2 => (trace ++ sent.1, .error e2)
  | .ok _ => (trace ++ sent.1, .ok ⟨false, none, none, some errStr⟩)

/-- Embeds `triggerReiFlow()` from `src/web/ops/rei_dispo.js`.
`ts` is the value of `Date.now()`; `webhookOutcome`, `listOutcome` and
`runOutcome` are the outcomes of the direct-webhook POST, of
`fetch(baseUrl + '/rest/workflows').then(r => r.json())` (with the
parsed body's `data` array, `none` when `list?.data` is not an array),
and of the run POST.  The direct-webhook `fetch` and the final return
are outside the `try`, so a rejection there escapes. -/
def triggerReiFlow (env : Env) (ts : Nat)
    (webhookOutcome : Except String Response)
    (listOutcome : Except String (Option (List Workflow)))
    (runOutcome : Except String Response)
    (discordOutcome : Except String Response) (discordTextOutcome : Except String String) :
    List NetCall × Except String TriggerResult :=
  let webhook := envStr env "N8N_REI_DISPO_WEBHOOK_URL"
  if webhook = "" then
    let baseUrl := stripTrailingSlash (envStr env "N8N_BASE_URL")
    if baseUrl = "" then
      ([], .ok ⟨false, none, none, some "N8N_BASE_URL not set"⟩)
    else
      let listUrl := baseUrl ++ "/rest/workflows"
      match listOutcome with
      | .error e =>
        triggerCatch env ("REI trigger failed: " ++ e) e [.listGet listUrl]
          discordOutcome discordTextOutcome
      | .ok listData =>
        let data := listData.getD []
        match findWorkflowRei data with
        | none => ([.listGet listUrl], .ok ⟨false, none, none, some "REI workflow not found"⟩)
        | some wf =>
          let runUrl := baseUrl ++ "/rest/workflows/" ++ wf.id ++ "/run"
          match runOutcome with
          | .error e =>
            triggerCatch env ("REI trigger failed: " ++ e) e [.listGet listUrl, .runPost runUrl]
              discordOutcome discordTextOutcome
          | .ok run =>
            ([.listGet listUrl, .runPost runUrl], .ok ⟨run.okB, some run.status, some wf.id, none⟩)
  else
    match webhookOutcome with
    | .error e => ([.webhookPost webhook ts "rei_dispo.trigger"], .error e)
    | .ok r => ([.webhookPost webhook ts "rei_dispo.trigger"], .ok ⟨r.okB, some r.status, none, none⟩)

/-- Embeds `triggerGovConFlow()` from `src/web/ops/govcon_subtrap.js`;
same shape as `triggerReiFlow` with the govcon webhook variable,
markers `GOVCON`/`SUBTRAP`, source `govcon_subtrap.trigger`, and its
own error strings. -/
def triggerGovConFlow (env : Env) (ts : Nat)
    (webhookOutcome : Except String Response)
    (listOutcome : Except String (Option (List Workflow)))
    (runOutcome : Except String Response)
    (discordOutcome : Except String Response) (discordTextOutcome : Except String String) :
    List NetCall × Except String TriggerResult :=
  let webhook := envStr env "N8N_GOVCON_SUBTRAP_WEBHOOK_URL"
  if webhook = "" then
    let baseUrl := stripTrailingSlash (envStr env "N8N_BASE_URL")
    if baseUrl = "" then
      ([], .ok ⟨false, none, none, some "N8N_BASE_URL not set"⟩)
    else
      let listUrl := baseUrl ++ "/rest/workflows"
      match listOutcome with
      | .error e =>
        triggerCatch env ("GovCon trigger failed: " ++ e) e [.listGet listUrl]
          discordOutcome discordTextOutcome
      | .ok listData =>
        let data := listData.getD []
        match findWorkflowGovCon data with
        | none => ([.listGet listUrl], .ok ⟨false, none, none, some "GovCon workflow not found"⟩)
        | some wf =>
          let runUrl := baseUrl ++ "/rest/workflows/" ++ wf.id ++ "/run"
          match runOutcome with
          | .error e =>
            triggerCatch env ("GovCon trigger failed: " ++ e) e [.listGet listUrl, .runPost runUrl]
              discordOutcome discordTextOutcome
          | .ok run =>
            ([.listGet listUrl, .runPost runUrl], .ok ⟨run.okB, some run.status, some wf.id, none⟩)
  else
    match webhookOutcome with
    | .error e => ([.webhookPost webhook ts "govcon_subtrap.trigger"], .error e)
    | .ok r => ([.webhookPost webhook ts "govcon_subtrap.trigger"], .ok ⟨r.okB, some r.status, none, none⟩)

/-- Embeds the `.catch((e) => ({ ok: false, error: String(e) }))` that
`runOnce` attaches to each trigger promise in `worker.js`. -/
def catchTrigger (o : Except String TriggerResult) : TriggerResult :=
  match o with
  | .ok r => r
  | .error e => ⟨false, none, none, some e⟩

/-- JSON.stringify of one trigger result object, following the key order
in which the source constructs each object (`ok` first, then `status`,
`workflowId`, `error` when present).  String values are spliced in
verbatim; JS escaping of special characters inside them is not
modelled (the strings of interest here contain none). -/
def stringifyTriggerResult (r : TriggerResult) : String :=
  "\x7b\"ok\":" ++ (if r.ok then "true" else "false")
    ++ (match r.status with | some n => ",\"status\":" ++ toString n | none => "")
    ++ (match r.workflowId with | some w => ",\"workflowId\":\"" ++ w ++ "\"" | none => "")
    ++ (match r.error with | some e => ",\"error\":\"" ++ e ++ "\"" | none => "")
    ++ "\x7d"

/-- JSON.stringify of one `Object.entries` pair `[name, result]`. -/
def stringifyFailureEntry (p : String × TriggerResult) : String :=
  "[\"" ++ p.1 ++ "\"," ++ stringifyTriggerResult p.2 ++ "]"

/-- Comma-joined entry bodies of a stringified array. -/
def stringifyEntriesAux : List (String × TriggerResult) → String
  | [] => ""
  | [p] => stringifyFailureEntry p
  | p :: q :: rest => stringifyFailureEntry p ++ "," ++ stringifyEntriesAux (q :: rest)

/-- JSON.stringify of the `failures` array in `runOnce`. -/
def stringifyFailures (fs : List (String × TriggerResult)) : String :=
  "[" ++ stringifyEntriesAux fs ++ "]"

/-- Embeds `runOnce()` from `src/web/ops/worker.js` lines 24-33: invoke
`triggerReiFlow` then `triggerGovConFlow` (each with its `.catch`
wrapper), build `results` in insertion order, filter the entries with
`!r.ok`, and if any, invoke `sendOpsMessage` once with the aggregated
message.  The first component is the cycle report
(`Object.entries(results)` order), the second the list of notification
messages passed to `sendOpsMessage` (empty or a singleton). -/
def runOnce (reiOutcome govconOutcome : Except String TriggerResult) :
    List (String × TriggerResult) × List String :=
  let results := [("rei", catchTrigger reiOutcome), ("govcon", catchTrigger govconOutcome)]
  let failures := results.filter (fun p => !p.2.ok)
  let notifications :=
    if 0 < failures.length then
      ["Worker cycle had failures: " ++ stringifyFailures failures]
    else []
  (results, notifications)

/-- Return value of the Airtable probe's `testAuth`; `none` fields are
keys absent from the returned JS object. -/
structure AirtableAuthResult where
  ok : Bool
  table : Option String
  count : Option Nat
  error : Option String
  missing : Option (List String)
deriving Repr, DecidableEq

/-- Keys present on the JS object `testAuth` (Airtable) returns, in
construction order: `{ok:true, table, count}` on success and
`{ok:false, error, missing}` on failure. -/
def AirtableAuthResult.jsKeys (r : AirtableAuthResult) : List String :=
  ["ok"]
    ++ (if r.table.isSome then ["table"] else [])
    ++ (if r.count.isSome then ["count"] else [])
    ++ (if r.error.isSome then ["error"] else [])
    ++ (if r.missing.isSome then ["missing"] else [])

/-- Required env keys of the Airtable probe. -/
def airtableKeys : List String := ["AIRTABLE_API_KEY", "AIRTABLE_BASE_ID"]

/-- Embeds `testAuth({timeoutMs})` from the Airtable helper module
(`src/unnamed/part_001`), imported by `worker.js` as
`testAirtableAuth`.  `selectOutcome` is the outcome of
`base(kpiTable).select({maxRecords:1, pageSize:1}).all()`, whose
resolved value is the record count the probe reports.  When a required
env key is blank, `getAirtableBase` throws
`new Error('Missing env for Airtable: ...')` before any network call;
the probe's own `catch` stringifies it (JS `String(err)` prefixes
`Error: `) and recomputes the missing list. -/
def testAirtableAuth (env : Env) (selectOutcome : Except String Nat) :
    List NetCall × AirtableAuthResult :=
  let kpiTable := if envStr env "AIRTABLE_TABLE_KPI" = "" then "KPI_Log"
    else envStr env "AIRTABLE_TABLE_KPI"
  let missing := getMissingEnv env airtableKeys
  if 0 < missing.length then
    ([], ⟨false, none, none,
      some ("Error: Missing env for Airtable: " ++ joinCommaSpace missing), some missing⟩)
  else
    match selectOutcome with
    | .ok n => ([.airtableSelect kpiTable], ⟨true, some kpiTable, some n, none, none⟩)
    | .error e =>
      ([.airtableSelect kpiTable],
        ⟨false, none, none, some e, some (getMissingEnv env airtableKeys)⟩)

/-- Twilio account metadata as returned by
`client.api.v2010.accounts(sid).fetch()`. -/
structure TwilioAccount where
  sid : String
  status : String
deriving Repr, DecidableEq

/-- Return value of the Twilio probe's `testAuth`; `none` fields are
keys absent from the returned JS object. -/
structure TwilioAuthResult where
  ok : Bool
  accountSid : Option String
  status : Option String
  error : Option String
  missing : Option (List String)
deriving Repr, DecidableEq

/-- Keys present on the JS object `testAuth` (Twilio) returns, in
construction order: `{ok:true, accountSid, status}` on success and
`{ok:false, error, missing}` on failure. -/
def TwilioAuthResult.jsKeys (r : TwilioAuthResult) : List String :=
  ["ok"]
    ++ (if r.accountSid.isSome then ["accountSid"] else [])
    ++ (if r.status.isSome then ["status"] else [])
    ++ (if r.error.isSome then ["error"] else [])
    ++ (if r.missing.isSome then ["missing"] else [])

/-- Required env keys of the Twilio probe. -/
def twilioKeys : List String := ["TWILIO_ACCOUNT_SID", "TWILIO_AUTH_TOKEN"]

/-- Embeds `testAuth({timeoutMs})` from `src/web/ops/twilio_utils.js`,
imported by `worker.js` as `testTwilioAuth`.  `fetchOutcome` is the
outcome of the account-metadata fetch.  When a required env key is
blank, `getTwilioClient` throws `new Error('Missing env for Twilio: ...')`
before any network call; the probe's `catch` stringifies it and
recomputes the missing list. -/
def testTwilioAuth (env : Env) (fetchOutcome : Except String TwilioAccount) :
    List NetCall × TwilioAuthResult :=
  let missing := getMissingEnv env twilioKeys
  if 0 < missing.length then
    ([], ⟨false, none, none,
      some ("Error: Missing env for Twilio: " ++ joinCommaSpace missing), some missing⟩)
  else
    match fetchOutcome with
    | .ok acc =>
      ([.twilioAccountFetch (envStr env "TWILIO_ACCOUNT_SID")],
        ⟨true, some acc.sid, some acc.status, none, none⟩)
    | .error e =>
      ([.twilioAccountFetch (envStr env "TWILIO_ACCOUNT_SID")],
        ⟨false, none, none, some e, some (getMissingEnv env twilioKeys)⟩)

/-- One ATOM feed entry as the probe projects it (`{title, id}`). -/
structure FeedEntry where
  title : String
  id : String
deriving Repr, DecidableEq

/-- Shape of `json?.feed?.entry` after `fast-xml-parser` parses the feed
body: absent (no entry), a single object (how a one-entry feed
parses), or an array of entries. -/
inductive EntryField where
  | absent
  | single (e : FeedEntry)
  | list (es : List FeedEntry)
deriving Repr, DecidableEq

/-- Return value of `pollGovConFeed`; `none` fields are keys absent from
the returned JS object. -/
structure PollResult where
  ok : Bool
  status : Option Nat
  count : Option Nat
  sample : Option (List FeedEntry)
  error : Option String
deriving Repr, DecidableEq

/-- Embeds the `try` body of `pollGovConFeed` in
`src/web/ops/govcon_subtrap.js` lines 10-17.  `fetchOutcome` is the
outcome of `fetch(feedUrl)`; `bodyOutcome` covers `r.text()` and
`parser.parse(xml)` and yields the shape of `json?.feed?.entry`.
JS `entries = json?.feed?.entry || []` keeps a single entry object as
is (it is truthy), and `entries.slice(0, limit)` then throws
`TypeError: entries.slice is not a function`; on an array (or `[]`
from an absent field) it takes the first `limit` entries and maps each
to `{title, id}`. -/
def pollGovConFeedTry (limit : Nat) (fetchOutcome : Except String Response)
    (bodyOutcome : Except String EntryField) : Except String PollResult :=
  match fetchOutcome with
  | .error e => .error e
  | .ok r =>
    if !r.okB then .ok ⟨false, some r.status, none, none, none⟩
    else
      match bodyOutcome with
      | .error e => .error e
      | .ok ef =>
        match ef with
        | .single _ => .error "TypeError: entries.slice is not a function"
        | .absent => .ok ⟨true, none, some 0, some [], none⟩
        | .list es =>
          .ok ⟨true, none, some es.length,
            some ((es.take limit).map (fun e => ⟨e.title, e.id⟩)), none⟩

/-- The feed URL: `process.env.FPDS_ATOM_FEED || 'https://www.fpds.gov/ezsearch/FEEDS/ATOM'`. -/
def feedUrlOf (env : Env) : String :=
  if envStr env "FPDS_ATOM_FEED" = "" then "https://www.fpds.gov/ezsearch/FEEDS/ATOM"
  else envStr env "FPDS_ATOM_FEED"

/-- Embeds `pollGovConFeed({limit})` from `src/web/ops/govcon_subtrap.js`
lines 8-22: the whole body runs inside `try`, and the `catch` turns
any thrown error into `{ok:false, error: String(e)}`, so the function
always returns a value. -/
def pollGovConFeed (env : Env) (limit : Nat) (fetchOutcome : Except String Response)
    (bodyOutcome : Except String EntryField) : List NetCall × PollResult :=
  ([.feedGet (feedUrlOf env)],
    match pollGovConFeedTry limit fetchOutcome bodyOutcome with
    | .ok r => r
    | .error e => ⟨false, none, none, none, some e⟩)

/-- Timing model for a probe's single external call under the
`AbortController` + `setTimeout(() => controller.abort(), timeoutMs)`
pattern of both `testAuth` implementations.  `callDuration` is how
long the external call would take on its own (`none` = it hangs
forever).  If the controller's signal were wired into the request, the
abort fired at `timeoutMs` would settle the awaited call no later than
`timeoutMs`; if it is not wired, the abort has no effect and the probe
awaits the call's own duration. -/
def callCompletionTime (signalWired : Bool) (timeoutMs : Nat) (callDuration : Option Nat) :
    Option Nat :=
  match callDuration with
  | some d => if signalWired then some (min d timeoutMs) else some d
  | none => if signalWired then some timeoutMs else none

/-- Read off the Airtable probe's call site
(`base(kpiTable).select({maxRecords:1, pageSize:1}).all()`): no
`signal` (nor the controller) is passed to the request, so the abort
is not wired to it. -/
def airtableSelectSignalWired : Bool := false

/-- Read off the Twilio probe's call site
(`client.api.v2010.accounts(TWILIO_ACCOUNT_SID).fetch()`): no `signal`
is passed to the request. -/
def twilioFetchSignalWired : Bool := false

/-- When (in ms from the start of the probe) the Airtable `testAuth`'s
awaited external call settles, given the call's own duration. -/
def testAirtableAuthCompletionTime (timeoutMs : Nat) (callDuration : Option Nat) : Option Nat :=
  callCompletionTime airtableSelectSignalWired timeoutMs callDuration

/-- When the Twilio `testAuth`'s awaited external call settles. -/
def testTwilioAuthCompletionTime (timeoutMs : Nat) (callDuration : Option Nat) : Option Nat :=
  callCompletionTime twilioFetchSignalWired timeoutMs callDuration

/-- Worker state visible to the heartbeat timer: the `iteration` counter
declared `let iteration = 0` in `startWorker` (`worker.js` line 38). -/
structure WorkerState where
  iteration : Nat
deriving Repr, DecidableEq

/-- The timer events `startWorker` registers: the cycle timer (runs
`runOnce`) and the heartbeat timer; the keep-alive sleep loop touches
no state and is represented by `sleepTick`. -/
inductive WorkerEvent where
  | cycleTick
  | heartbeatTick
  | sleepTick
deriving Repr, DecidableEq

/-- One timer firing: only the heartbeat callback mentions `iteration`,
and it executes `iteration += 1`. -/
def stepWorker : WorkerState → WorkerEvent → WorkerState
  | s, .heartbeatTick => ⟨s.iteration + 1⟩
  | s, .cycleTick => s
  | s, .sleepTick => s

/-- Initial worker state: `let iteration = 0`. -/
def initWorkerState : WorkerState := ⟨0⟩

/-- The worker state after a sequence of timer firings. -/
def runWorker (evs : List WorkerEvent) : WorkerState :=
  evs.foldl stepWorker initWorkerState

/-- Test for the heartbeat event. -/
def isHeartbeat : WorkerEvent → Bool
  | .heartbeatTick => true
  | _ => false

/-- Test for the workflow-list GET among issued calls. -/
def isListGetCall : NetCall → Bool
  | .listGet _ => true
  | _ => false

/-- Number of workflow-list GETs in a call trace. -/
def countListGet (t : List NetCall) : Nat := t.countP isListGetCall

/-- Fixture: an empty environment (nothing configured). -/
def envEmpty : Env := fun _ => none

/-- Fixture: only the Discord ops webhook configured. -/
def envDiscord : Env :=
  fun k => if k = "DISCORD_WEBHOOK_OPS" then some "https://discord.example/hook" else none

/-- Fixture: only the REI direct webhook configured. -/
def envReiHook : Env :=
  fun k => if k = "N8N_REI_DISPO_WEBHOOK_URL" then some "https://n8n.example/webhook/rei" else none

/-- Fixture: only the workflow-engine base URL configured. -/
def envBaseOnly : Env :=
  fun k => if k = "N8N_BASE_URL" then some "https://n8n.example" else none

/-- Fixture: a ten-entry feed. -/
def entriesTen : List FeedEntry :=
  (List.range 10).map (fun i => ⟨"Award " ++ toString i, "fpds:" ++ toString i⟩)

/-- Fixture: the spec's example workflow list. -/
def wfPair : List Workflow := [⟨some "Unrelated", "wf1"⟩, ⟨some "GOVCON_NIGHTLY", "wf2"⟩]

theorem strContainsB_iff (hay needle : String) :
    strContainsB hay needle = true ↔ needle.data <:+: hay.data := by
  simp [strContainsB]

theorem strContainsB_mid (x n y : String) : strContainsB (x ++ n ++ y) n = true := by
  rw [strContainsB_iff]
  simp only [String.data_append]
  exact List.infix_append x.data n.data y.data

theorem strContainsB_app_left (a b n : String) (h : strContainsB a n = true) :
    strContainsB (a ++ b) n = true := by
  rw [strContainsB_iff] at *
  simp only [String.data_append]
  exact h.trans ((List.prefix_append a.data b.data).isInfix)

theorem strContainsB_app_right (a b n : String) (h : strContainsB b n = true) :
    strContainsB (a ++ b) n = true := by
  rw [strContainsB_iff] at *
  simp only [String.data_append]
  exact h.trans ((List.suffix_append a.data b.data).isInfix)

theorem runWorker_foldl_count (evs : List WorkerEvent) : ∀ s : WorkerState,
    (evs.foldl stepWorker s).iteration = s.iteration + evs.countP isHeartbeat := by
  induction evs with
  | nil => intro s; simp
  | cons e rest ih =>
    intro s
    cases e <;> (simp [stepWorker, isHeartbeat, List.countP_cons, ih]; try omega)

/-- Claim C9: the heartbeat counter `iteration` starts at 0, each
heartbeat tick increments it by exactly 1, no other timer event
touches it, hence after any event sequence it equals the number of
heartbeat ticks and it never decreases. -/
theorem worker_heartbeat_counter_c9 :
    initWorkerState.iteration = 0
    ∧ (∀ evs : List WorkerEvent, (runWorker evs).iteration = evs.countP isHeartbeat)
    ∧ (∀ s : WorkerState, (stepWorker s .heartbeatTick).iteration = s.iteration + 1)
    ∧ (∀ s : WorkerState, (stepWorker s .cycleTick).iteration = s.iteration)
    ∧ (∀ s : WorkerState, (stepWorker s .sleepTick).iteration = s.iteration)
    ∧ (∀ (s : WorkerState) (e : WorkerEvent), s.iteration ≤ (stepWorker s e).iteration) := by
  refine ⟨rfl, ?_, fun s => rfl, fun s => rfl, fun s => rfl, ?_⟩
  · intro evs
    have h := runWorker_foldl_count evs initWorkerState
    simpa [runWorker, initWorkerState] using h
  · intro s e
    cases e <;> simp [stepWorker]

/-- Claim C5 (code bug): in both probes the `AbortController`'s signal is
created and a timer is armed to fire `abort()` at `timeoutMs`, but the
signal is never attached to the external request, so the abort cannot
settle the awaited call: with `timeoutMs = 2500` a hung call never
completes and a 100000 ms call takes the full 100000 ms, whereas a
wired signal would settle a hung call at 2500 ms. -/
theorem probe_timeout_not_wired_c5 :
    testAirtableAuthCompletionTime 2500 none = none
    ∧ testTwilioAuthCompletionTime 2500 none = none
    ∧ testAirtableAuthCompletionTime 2500 (some 100000) = some 100000
    ∧ testTwilioAuthCompletionTime 2500 (some 100000) = some 100000
    ∧ callCompletionTime true 2500 none = some 2500 := by
  decide

/-- Claim C8: the feed probe returns `{ok:false, status}` on a non-2xx
response, and on a 2xx response whose parsed body holds an entry list
it returns `ok:true`, `count` equal to the number of entries, and
`sample` equal to the first `limit` entries' `{title, id}`, whose
length is `min limit count`. -/
theorem pollGovConFeed_success_c8 : ∀ (env : Env) (limit : Nat)
    (fetchOutcome : Except String Response) (bodyOutcome : Except String EntryField),
    (∀ r : Response, fetchOutcome = .ok r → r.okB = false →
      (pollGovConFeed env limit fetchOutcome bodyOutcome).2
        = ⟨false, some r.status, none, none, none⟩)
    ∧ (∀ (r : Response) (es : List FeedEntry), fetchOutcome = .ok r → r.okB = true →
        bodyOutcome = .ok (.list es) →
        (pollGovConFeed env limit fetchOutcome bodyOutcome).2
          = ⟨true, none, some es.length,
              some ((es.take limit).map (fun e => ⟨e.title, e.id⟩)), none⟩
        ∧ ((es.take limit).map (fun e => (⟨e.title, e.id⟩ : FeedEntry))).length
            = min limit es.length) := by
  intro env limit fetchOutcome bodyOutcome
  constructor
  · intro r hf hok
    subst hf
    simp [pollGovConFeed, pollGovConFeedTry, hok]
  · intro r es hf hok hb
    subst hf; subst hb
    constructor
    · simp [pollGovConFeed, pollGovConFeedTry, hok]
    · simp [List.length_take]

/-- Claim C8 witness: `limit = 2` on a ten-entry feed with a 200
response yields `count = 10` and a two-entry sample. -/
theorem pollGovConFeed_success_c8_witness :
    (pollGovConFeed envEmpty 2 (.ok ⟨200⟩) (.ok (.list entriesTen))).2
      = ⟨true, none, some 10,
          some ((entriesTen.take 2).map (fun e => ⟨e.title, e.id⟩)), none⟩
    ∧ ((entriesTen.take 2).map (fun e => (⟨e.title, e.id⟩ : FeedEntry))).length = min 2 10 :=
  (pollGovConFeed_success_c8 envEmpty 2 (.ok ⟨200⟩) (.ok (.list entriesTen))).2
    ⟨200⟩ entriesTen rfl rfl rfl

/-- Claim C10: everything thrown inside `pollGovConFeed`'s `try` is
caught and returned as `{ok:false, error}`; in particular a 2xx feed
whose `feed.entry` parsed to a single object (one-entry feed) yields
`{ok:false, error}` — not `{ok:true, count: 1}` — because
`entries.slice` throws a `TypeError` on a non-array. -/
theorem pollGovConFeed_total_c10 : ∀ (env : Env) (limit : Nat)
    (fetchOutcome : Except String Response) (bodyOutcome : Except String EntryField),
    (∀ e : String, pollGovConFeedTry limit fetchOutcome bodyOutcome = .error e →
      (pollGovConFeed env limit fetchOutcome bodyOutcome).2 = ⟨false, none, none, none, some e⟩)
    ∧ (∀ (r : Response) (ent : FeedEntry), fetchOutcome = .ok r → r.okB = true →
        bodyOutcome = .ok (.single ent) →
        (pollGovConFeed env limit fetchOutcome bodyOutcome).2
          = ⟨false, none, none, none, some "TypeError: entries.slice is not a function"⟩
        ∧ ¬((pollGovConFeed env limit fetchOutcome bodyOutcome).2.ok = true
            ∧ (pollGovConFeed env limit fetchOutcome bodyOutcome).2.count = some 1)) := by
  intro env limit fetchOutcome bodyOutcome
  constructor
  · intro e he
    simp [pollGovConFeed, he]
  · intro r ent hf hok hb
    subst hf; subst hb
    constructor
    · simp [pollGovConFeed, pollGovConFeedTry, hok]
    · simp [pollGovConFeed, pollGovConFeedTry, hok]

/-- Claim C10 witness: a 200 response whose body parsed to a single
entry object produces `{ok:false, error}`. -/
theorem pollGovConFeed_total_c10_witness :
    (pollGovConFeed envEmpty 5 (.ok ⟨200⟩) (.ok (.single ⟨"t", "i"⟩))).2
      = ⟨false, none, none, none, some "TypeError: entries.slice is not a function"⟩
    ∧ ¬((pollGovConFeed envEmpty 5 (.ok ⟨200⟩) (.ok (.single ⟨"t", "i"⟩))).2.ok = true
        ∧ (pollGovConFeed envEmpty 5 (.ok ⟨200⟩) (.ok (.single ⟨"t", "i"⟩))).2.count = some 1) :=
  (pollGovConFeed_total_c10 envEmpty 5 (.ok ⟨200⟩) (.ok (.single ⟨"t", "i"⟩))).2
    ⟨200⟩ ⟨"t", "i"⟩ rfl rfl rfl

/-- Claim C2 counterexample: with every Airtable credential absent the
probe does fail fast with `ok:false`, zero network calls, and an array
naming exactly the missing keys — but the returned object's keys are
`ok`, `error`, `missing`: there is no `missingConfig` member, so the
claim's stated shape is wrong at this input. -/
theorem testAuth_missing_keyname_c2_cex :
    envBlank envEmpty "AIRTABLE_API_KEY" = true
    ∧ (testAirtableAuth envEmpty (.ok 0)).1 = []
    ∧ (testAirtableAuth envEmpty (.ok 0)).2.ok = false
    ∧ (testAirtableAuth envEmpty (.ok 0)).2.missing
        = some ["AIRTABLE_API_KEY", "AIRTABLE_BASE_ID"]
    ∧ (testAirtableAuth envEmpty (.ok 0)).2.jsKeys = ["ok", "error", "missing"]
    ∧ "missingConfig" ∉ (testAirtableAuth envEmpty (.ok 0)).2.jsKeys
    ∧ (testTwilioAuth envEmpty (.error "unreached")).2.jsKeys = ["ok", "error", "missing"]
    ∧ "missingConfig" ∉ (testTwilioAuth envEmpty (.error "unreached")).2.jsKeys := by
  decide

/-- Claim C2 as amended: for both probes, if any required credential is
absent or blank the call returns `ok:false` together with a `missing`
array (not `missingConfig`) naming exactly the absent-or-blank keys,
an `error` string naming them as well, and makes zero network calls. -/
theorem testAuth_missing_failfast_c2 : ∀ (env : Env) (aOut : Except String Nat)
    (tOut : Except String TwilioAccount),
    (0 < (getMissingEnv env airtableKeys).length →
      testAirtableAuth env aOut = ([], ⟨false, none, none,
        some ("Error: Missing env for Airtable: " ++ joinCommaSpace (getMissingEnv env airtableKeys)),
        some (getMissingEnv env airtableKeys)⟩))
    ∧ (0 < (getMissingEnv env twilioKeys).length →
      testTwilioAuth env tOut = ([], ⟨false, none, none,
        some ("Error: Missing env for Twilio: " ++ joinCommaSpace (getMissingEnv env twilioKeys)),
        some (getMissingEnv env twilioKeys)⟩)) := by
  intro env aOut tOut
  constructor
  · intro h
    simp only [testAirtableAuth, if_pos h]
  · intro h
    simp only [testTwilioAuth, if_pos h]

/-- Claim C2 amended witness: both probes at the empty environment. -/
theorem testAuth_missing_failfast_c2_witness :
    0 < (getMissingEnv envEmpty airtableKeys).length
    ∧ testAirtableAuth envEmpty (.ok 0) = ([], ⟨false, none, none,
        some "Error: Missing env for Airtable: AIRTABLE_API_KEY, AIRTABLE_BASE_ID",
        some ["AIRTABLE_API_KEY", "AIRTABLE_BASE_ID"]⟩)
    ∧ testTwilioAuth envEmpty (.error "unreached") = ([], ⟨false, none, none,
        some "Error: Missing env for Twilio: TWILIO_ACCOUNT_SID, TWILIO_AUTH_TOKEN",
        some ["TWILIO_ACCOUNT_SID", "TWILIO_AUTH_TOKEN"]⟩) := by
  have h := testAuth_missing_failfast_c2 envEmpty (.ok 0) (.error "unreached")
  exact ⟨by decide, h.1 (by decide), h.2 (by decide)⟩

/-- Claim C3 counterexample: with the Discord webhook configured and the
transport rejecting, `sendOpsMessage` does not return a value — the
rejection escapes to the caller (the `fetch` in `discord_utils.js` is
not wrapped in any `try`). -/
theorem sendOpsMessage_raises_c3_cex :
    (sendOpsMessage envDiscord "hello" (.error "FetchError: network down") (.ok "")).2
      = .error "FetchError: network down"
    ∧ (sendOpsMessage envDiscord "hello" (.error "FetchError: network down") (.ok "")).1
      = [.discordPost "https://discord.example/hook" "hello"] :=
  ⟨rfl, rfl⟩

/-- Claim C3 as amended: if no destination webhook is configured the
notifier returns `{ok:false, error}` without attempting a send; on a
2xx response it returns `{ok:true}`; on a non-2xx response it returns
`{ok:false, status, text}` (reading the body, with a failed body read
collapsing to `""`); but a transport error from the send itself
propagates as an exception to the caller. -/
theorem sendOpsMessage_paths_c3 : ∀ (env : Env) (msg : String)
    (fetchOutcome : Except String Response) (textOutcome : Except String String),
    (envStr env "DISCORD_WEBHOOK_OPS" = "" →
      sendOpsMessage env msg fetchOutcome textOutcome
        = ([], .ok ⟨false, none, none, some "DISCORD_WEBHOOK_OPS is not set"⟩))
    ∧ (∀ r : Response, envStr env "DISCORD_WEBHOOK_OPS" ≠ "" → fetchOutcome = .ok r →
        r.okB = true →
        (sendOpsMessage env msg fetchOutcome textOutcome).2 = .ok ⟨true, none, none, none⟩)
    ∧ (∀ r : Response, envStr env "DISCORD_WEBHOOK_OPS" ≠ "" → fetchOutcome = .ok r →
        r.okB = false →
        (sendOpsMessage env msg fetchOutcome textOutcome).2
          = .ok ⟨false, some r.status,
              some (match textOutcome with | .ok s => s | .error _ => ""), none⟩)
    ∧ (∀ e : String, envStr env "DISCORD_WEBHOOK_OPS" ≠ "" → fetchOutcome = .error e →
        (sendOpsMessage env msg fetchOutcome textOutcome).2 = .error e) := by
  intro env msg fetchOutcome textOutcome
  refine ⟨?_, ?_, ?_, ?_⟩
  · intro h
    simp only [sendOpsMessage, if_pos h]
  · intro r hw hf hok
    subst hf
    simp only [sendOpsMessage, if_neg hw, hok, if_pos]
  · intro r hw hf hok
    subst hf
    simp only [sendOpsMessage, if_neg hw, hok]
    simp
  · intro e hw hf
    subst hf
    simp only [sendOpsMessage, if_neg hw]

/-- Claim C3 amended witness: unconfigured, 2xx, and non-2xx paths at
concrete inputs. -/
theorem sendOpsMessage_paths_c3_witness :
    sendOpsMessage envEmpty "m" (.ok ⟨200⟩) (.ok "")
      = ([], .ok ⟨false, none, none, some "DISCORD_WEBHOOK_OPS is not set"⟩)
    ∧ (sendOpsMessage envDiscord "m" (.ok ⟨204⟩) (.ok "")).2 = .ok ⟨true, none, none, none⟩
    ∧ (sendOpsMessage envDiscord "m" (.ok ⟨404⟩) (.ok "Not Found")).2
      = .ok ⟨false, some 404, some "Not Found", none⟩ := by
  refine ⟨(sendOpsMessage_paths_c3 envEmpty "m" (.ok ⟨200⟩) (.ok "")).1 (by decide), ?_, ?_⟩
  · exact (sendOpsMessage_paths_c3 envDiscord "m" (.ok ⟨204⟩) (.ok "")).2.1
      ⟨204⟩ (by decide) rfl (by decide)
  · exact (sendOpsMessage_paths_c3 envDiscord "m" (.ok ⟨404⟩) (.ok "Not Found")).2.2.1
      ⟨404⟩ (by decide) rfl (by decide)

theorem sendOpsMessage_no_raise (env : Env) (m : String) (fo : Except String Response)
    (tOut2 : Except String String)
    (h : envStr env "DISCORD_WEBHOOK_OPS" = "" ∨ ∃ dr, fo = .ok dr) :
    ∃ s, (sendOpsMessage env m fo tOut2).2 = .ok s := by
  rcases h with h | ⟨dr, h⟩
  · exact ⟨⟨false, none, none, some "DISCORD_WEBHOOK_OPS is not set"⟩, by
      simp [sendOpsMessage, if_pos h]⟩
  · subst h
    by_cases hw : envStr env "DISCORD_WEBHOOK_OPS" = ""
    · exact ⟨⟨false, none, none, some "DISCORD_WEBHOOK_OPS is not set"⟩, by
        simp [sendOpsMessage, if_pos hw]⟩
    · by_cases hok : dr.okB
      · exact ⟨⟨true, none, none, none⟩, by simp [sendOpsMessage, if_neg hw, hok]⟩
      · exact ⟨⟨false, some dr.status,
            some (match tOut2 with | .ok s => s | .error _ => ""), none⟩,
          by simp [sendOpsMessage, if_neg hw, hok]⟩

theorem triggerCatch_ok (env : Env) (nm es : String) (tr : List NetCall)
    (dOut : Except String Response) (dtOut : Except String String)
    (h : envStr env "DISCORD_WEBHOOK_OPS" = "" ∨ ∃ dr, dOut = .ok dr) :
    (triggerCatch env nm es tr dOut dtOut).2 = .ok ⟨false, none, none, some es⟩ := by
  obtain ⟨s, hs⟩ := sendOpsMessage_no_raise env nm dOut dtOut h
  simp [triggerCatch, hs]

theorem countP_listGet_sendOps (env : Env) (m : String) (fo : Except String Response)
    (tOut2 : Except String String) :
    (sendOpsMessage env m fo tOut2).1.countP isListGetCall = 0 := by
  by_cases h : envStr env "DISCORD_WEBHOOK_OPS" = ""
  · simp [sendOpsMessage, if_pos h]
  · cases fo with
    | error e => simp [sendOpsMessage, if_neg h, isListGetCall]
    | ok r =>
      by_cases hok : r.okB <;>
        simp [sendOpsMessage, if_neg h, hok, isListGetCall]

theorem countP_listGet_triggerCatch (env : Env) (nm es : String) (tr : List NetCall)
    (dOut : Except String Response) (dtOut : Except String String) :
    (triggerCatch env nm es tr dOut dtOut).1.countP isListGetCall
      = tr.countP isListGetCall := by
  have h0 := countP_listGet_sendOps env nm dOut dtOut
  cases hs : (sendOpsMessage env nm dOut dtOut).2 <;>
    simp [triggerCatch, hs, List.countP_append, h0]

/-- Claim C4 counterexample: with the REI direct webhook configured and
the webhook POST rejecting, the exception escapes `triggerReiFlow` to
its caller — the direct-webhook path of step 1 is outside the
function's `try`/`catch`. -/
theorem trigger_webhook_raises_c4_cex :
    (triggerReiFlow envReiHook 0 (.error "FetchError: socket hang up") (.ok none)
        (.ok ⟨200⟩) (.ok ⟨204⟩) (.ok "")).2
      = .error "FetchError: socket hang up" := rfl

/-- Claim C4 as amended: for both flow triggers, a non-2xx status on the
direct-webhook POST is returned as data (`{ok:false, status}`), a
non-2xx status on the workflow run POST is returned as data
(`{ok:false, status, workflowId}`), and a thrown transport error
during step 2 (the workflow-list or run call) is caught and returned
as `{ok:false, error}` provided the catch-block's own failure
notification does not reject; but a thrown transport error on the
direct-webhook path of step 1 propagates as an exception to the
caller. -/
theorem trigger_errors_as_data_c4 : ∀ (env : Env) (ts : Nat) (wOut : Except String Response)
    (lOut : Except String (Option (List Workflow))) (rOut : Except String Response)
    (dOut : Except String Response) (dtOut : Except String String),
    (∀ e : String, envStr env "N8N_REI_DISPO_WEBHOOK_URL" ≠ "" → wOut = .error e →
      (triggerReiFlow env ts wOut lOut rOut dOut dtOut).2 = .error e)
    ∧ (∀ r : Response, envStr env "N8N_REI_DISPO_WEBHOOK_URL" ≠ "" → wOut = .ok r →
        (triggerReiFlow env ts wOut lOut rOut dOut dtOut).2
          = .ok ⟨r.okB, some r.status, none, none⟩)
    ∧ (∀ e : String, envStr env "N8N_REI_DISPO_WEBHOOK_URL" = "" →
        stripTrailingSlash (envStr env "N8N_BASE_URL") ≠ "" → lOut = .error e →
        (envStr env "DISCORD_WEBHOOK_OPS" = "" ∨ ∃ dr, dOut = .ok dr) →
        (triggerReiFlow env ts wOut lOut rOut dOut dtOut).2
          = .ok ⟨false, none, none, some e⟩)
    ∧ (∀ (e : String) (ld : Option (List Workflow)) (wf : Workflow),
        envStr env "N8N_REI_DISPO_WEBHOOK_URL" = "" →
        stripTrailingSlash (envStr env "N8N_BASE_URL") ≠ "" → lOut = .ok ld →
        findWorkflowRei (ld.getD []) = some wf → rOut = .error e →
        (envStr env "DISCORD_WEBHOOK_OPS" = "" ∨ ∃ dr, dOut = .ok dr) →
        (triggerReiFlow env ts wOut lOut rOut dOut dtOut).2
          = .ok ⟨false, none, none, some e⟩)
    ∧ (∀ (r : Response) (ld : Option (List Workflow)) (wf : Workflow),
        envStr env "N8N_REI_DISPO_WEBHOOK_URL" = "" →
        stripTrailingSlash (envStr env "N8N_BASE_URL") ≠ "" → lOut = .ok ld →
        findWorkflowRei (ld.getD []) = some wf → rOut = .ok r →
        (triggerReiFlow env ts wOut lOut rOut dOut dtOut).2
          = .ok ⟨r.okB, some r.status, some wf.id, none⟩)
    ∧ (∀ e : String, envStr env "N8N_GOVCON_SUBTRAP_WEBHOOK_URL" ≠ "" → wOut = .error e →
        (triggerGovConFlow env ts wOut lOut rOut dOut dtOut).2 = .error e)
    ∧ (∀ r : Response, envStr env "N8N_GOVCON_SUBTRAP_WEBHOOK_URL" ≠ "" → wOut = .ok r →
        (triggerGovConFlow env ts wOut lOut rOut dOut dtOut).2
          = .ok ⟨r.okB, some r.status, none, none⟩)
    ∧ (∀ e : String, envStr env "N8N_GOVCON_SUBTRAP_WEBHOOK_URL" = "" →
        stripTrailingSlash (envStr env "N8N_BASE_URL") ≠ "" → lOut = .error e →
        (envStr env "DISCORD_WEBHOOK_OPS" = "" ∨ ∃ dr, dOut = .ok dr) →
        (triggerGovConFlow env ts wOut lOut rOut dOut dtOut).2
          = .ok ⟨false, none, none, some e⟩)
    ∧ (∀ (e : String) (ld : Option (List Workflow)) (wf : Workflow),
        envStr env "N8N_GOVCON_SUBTRAP_WEBHOOK_URL" = "" →
        stripTrailingSlash (envStr env "N8N_BASE_URL") ≠ "" → lOut = .ok ld →
        findWorkflowGovCon (ld.getD []) = some wf → rOut = .error e →
        (envStr env "DISCORD_WEBHOOK_OPS" = "" ∨ ∃ dr, dOut = .ok dr) →
        (triggerGovConFlow env ts wOut lOut rOut dOut dtOut).2
          = .ok ⟨false, none, none, some e⟩)
    ∧ (∀ (r : Response) (ld : Option (List Workflow)) (wf : Workflow),
        envStr env "N8N_GOVCON_SUBTRAP_WEBHOOK_URL" = "" →
        stripTrailingSlash (envStr env "N8N_BASE_URL") ≠ "" → lOut = .ok ld →
        findWorkflowGovCon (ld.getD []) = some wf → rOut = .ok r →
        (triggerGovConFlow env ts wOut lOut rOut dOut dtOut).2
          = .ok ⟨r.okB, some r.status, some wf.id, none⟩) := by
  intro env ts wOut lOut rOut dOut dtOut
  refine ⟨?_, ?_, ?_, ?_, ?_, ?_, ?_, ?_, ?_, ?_⟩
  · intro e hw hf
    subst hf
    simp [triggerReiFlow, if_neg hw]
  · intro r hw hf
    subst hf
    simp [triggerReiFlow, if_neg hw]
  · intro e h1 h2 hf hn
    subst hf
    simp [triggerReiFlow, if_pos h1, h2]
    exact triggerCatch_ok env _ e _ dOut dtOut hn
  · intro e ld wf h1 h2 hf hfind hr hn
    subst hf; subst hr
    simp [triggerReiFlow, if_pos h1, h2, hfind]
    exact triggerCatch_ok env _ e _ dOut dtOut hn
  · intro r ld wf h1 h2 hf hfind hr
    subst hf; subst hr
    simp [triggerReiFlow, if_pos h1, h2, hfind]
  · intro e hw hf
    subst hf
    simp [triggerGovConFlow, if_neg hw]
  · intro r hw hf
    subst hf
    simp [triggerGovConFlow, if_neg hw]
  · intro e h1 h2 hf hn
    subst hf
    simp [triggerGovConFlow, if_pos h1, h2]
    exact triggerCatch_ok env _ e _ dOut dtOut hn
  · intro e ld wf h1 h2 hf hfind hr hn
    subst hf; subst hr
    simp [triggerGovConFlow, if_pos h1, h2, hfind]
    exact triggerCatch_ok env _ e _ dOut dtOut hn
  · intro r ld wf h1 h2 hf hfind hr
    subst hf; subst hr
    simp [triggerGovConFlow, if_pos h1, h2, hfind]

/-- Claim C4 amended witness: a rejected workflow-list call with only the
base URL configured is returned as `{ok:false, error}`, and a non-2xx
run POST is returned as `{ok:false, status, workflowId}`. -/
theorem trigger_errors_as_data_c4_witness :
    (triggerReiFlow envBaseOnly 0 (.ok ⟨200⟩) (.error "FetchError: dns") (.ok ⟨200⟩)
        (.ok ⟨204⟩) (.ok "")).2
      = .ok ⟨false, none, none, some "FetchError: dns"⟩
    ∧ (triggerGovConFlow envBaseOnly 0 (.ok ⟨200⟩) (.ok (some wfPair)) (.ok ⟨500⟩)
        (.ok ⟨204⟩) (.ok "")).2
      = .ok ⟨false, some 500, some "wf2", none⟩ := by
  constructor
  · have h := trigger_errors_as_data_c4 envBaseOnly 0 (.ok ⟨200⟩) (.error "FetchError: dns")
      (.ok ⟨200⟩) (.ok ⟨204⟩) (.ok "")
    exact h.2.2.1 "FetchError: dns" (by decide) (by decide) rfl (Or.inl (by decide))
  · have h := trigger_errors_as_data_c4 envBaseOnly 0 (.ok ⟨200⟩) (.ok (some wfPair))
      (.ok ⟨500⟩) (.ok ⟨204⟩) (.ok "")
    exact h.2.2.2.2.2.2.2.2.2 ⟨500⟩ (some wfPair) ⟨some "GOVCON_NIGHTLY", "wf2"⟩
      (by decide) (by decide) rfl (by decide) rfl

/-- Claim C6: for each flow trigger — with the direct webhook configured
the trigger issues exactly the one webhook POST carrying the
`{ts, source}` envelope (so the workflow-list endpoint is never
called); with no webhook but a configured base URL (non-empty after
the code's trailing-slash normalization) the workflow-list endpoint is
called exactly once; with neither configured the trigger returns
`{ok:false, error:"N8N_BASE_URL not set"}` and issues no network
call. -/
theorem trigger_webhook_vs_list_c6 : ∀ (env : Env) (ts : Nat) (wOut : Except String Response)
    (lOut : Except String (Option (List Workflow))) (rOut : Except String Response)
    (dOut : Except String Response) (dtOut : Except String String),
    (envStr env "N8N_REI_DISPO_WEBHOOK_URL" ≠ "" →
      (triggerReiFlow env ts wOut lOut rOut dOut dtOut).1
        = [.webhookPost (envStr env "N8N_REI_DISPO_WEBHOOK_URL") ts "rei_dispo.trigger"])
    ∧ (envStr env "N8N_REI_DISPO_WEBHOOK_URL" = "" →
        stripTrailingSlash (envStr env "N8N_BASE_URL") ≠ "" →
        countListGet (triggerReiFlow env ts wOut lOut rOut dOut dtOut).1 = 1)
    ∧ (envStr env "N8N_REI_DISPO_WEBHOOK_URL" = "" → envStr env "N8N_BASE_URL" = "" →
        triggerReiFlow env ts wOut lOut rOut dOut dtOut
          = ([], .ok ⟨false, none, none, some "N8N_BASE_URL not set"⟩))
    ∧ (envStr env "N8N_GOVCON_SUBTRAP_WEBHOOK_URL" ≠ "" →
        (triggerGovConFlow env ts wOut lOut rOut dOut dtOut).1
          = [.webhookPost (envStr env "N8N_GOVCON_SUBTRAP_WEBHOOK_URL") ts
              "govcon_subtrap.trigger"])
    ∧ (envStr env "N8N_GOVCON_SUBTRAP_WEBHOOK_URL" = "" →
        stripTrailingSlash (envStr env "N8N_BASE_URL") ≠ "" →
        countListGet (triggerGovConFlow env ts wOut lOut rOut dOut dtOut).1 = 1)
    ∧ (envStr env "N8N_GOVCON_SUBTRAP_WEBHOOK_URL" = "" → envStr env "N8N_BASE_URL" = "" →
        triggerGovConFlow env ts wOut lOut rOut dOut dtOut
          = ([], .ok ⟨false, none, none, some "N8N_BASE_URL not set"⟩)) := by
  intro env ts wOut lOut rOut dOut dtOut
  refine ⟨?_, ?_, ?_, ?_, ?_, ?_⟩
  · intro hw
    cases wOut <;> simp [triggerReiFlow, if_neg hw]
  · intro h1 h2
    cases lOut with
    | error e =>
      simp [triggerReiFlow, if_pos h1, h2, countListGet, countP_listGet_triggerCatch,
        isListGetCall]
    | ok ld =>
      cases hfind : findWorkflowRei (ld.getD []) with
      | none =>
        simp [triggerReiFlow, if_pos h1, h2, hfind, countListGet, isListGetCall]
      | some wf =>
        cases rOut with
        | error e =>
          simp [triggerReiFlow, if_pos h1, h2, hfind, countListGet,
            countP_listGet_triggerCatch, isListGetCall]
        | ok r =>
          simp [triggerReiFlow, if_pos h1, h2, hfind, countListGet, isListGetCall]
  · intro h1 h2
    have h3 : stripTrailingSlash (envStr env "N8N_BASE_URL") = "" := by
      simp [h2, stripTrailingSlash]
    simp [triggerReiFlow, if_pos h1, h3]
  · intro hw
    cases wOut <;> simp [triggerGovConFlow, if_neg hw]
  · intro h1 h2
    cases lOut with
    | error e =>
      simp [triggerGovConFlow, if_pos h1, h2, countListGet, countP_listGet_triggerCatch,
        isListGetCall]
    | ok ld =>
      cases hfind : findWorkflowGovCon (ld.getD []) with
      | none =>
        simp [triggerGovConFlow, if_pos h1, h2, hfind, countListGet, isListGetCall]
      | some wf =>
        cases rOut with
        | error e =>
          simp [triggerGovConFlow, if_pos h1, h2, hfind, countListGet,
            countP_listGet_triggerCatch, isListGetCall]
        | ok r =>
          simp [triggerGovConFlow, if_pos h1, h2, hfind, countListGet, isListGetCall]
  · intro h1 h2
    have h3 : stripTrailingSlash (envStr env "N8N_BASE_URL") = "" := by
      simp [h2, stripTrailingSlash]
    simp [triggerGovConFlow, if_pos h1, h3]

/-- Claim C6 witness: the three branches at concrete environments. -/
theorem trigger_webhook_vs_list_c6_witness :
    (triggerReiFlow envReiHook 7 (.ok ⟨200⟩) (.ok none) (.ok ⟨200⟩) (.ok ⟨204⟩) (.ok "")).1
      = [.webhookPost "https://n8n.example/webhook/rei" 7 "rei_dispo.trigger"]
    ∧ countListGet
        (triggerGovConFlow envBaseOnly 0 (.ok ⟨200⟩) (.ok (some wfPair)) (.ok ⟨200⟩)
          (.ok ⟨204⟩) (.ok "")).1 = 1
    ∧ triggerGovConFlow envEmpty 0 (.ok ⟨200⟩) (.ok none) (.ok ⟨200⟩) (.ok ⟨204⟩) (.ok "")
        = ([], .ok ⟨false, none, none, some "N8N_BASE_URL not set"⟩) := by
  refine ⟨?_, ?_, ?_⟩
  · exact (trigger_webhook_vs_list_c6 envReiHook 7 (.ok ⟨200⟩) (.ok none) (.ok ⟨200⟩)
      (.ok ⟨204⟩) (.ok "")).1 (by decide)
  · exact (trigger_webhook_vs_list_c6 envBaseOnly 0 (.ok ⟨200⟩) (.ok (some wfPair))
      (.ok ⟨200⟩) (.ok ⟨204⟩) (.ok "")).2.2.2.2.1 (by decide) (by decide)
  · exact (trigger_webhook_vs_list_c6 envEmpty 0 (.ok ⟨200⟩) (.ok none) (.ok ⟨200⟩)
      (.ok ⟨204⟩) (.ok "")).2.2.2.2.2 (by decide) (by decide)

theorem specFirstContaining_eq_find (data : List Workflow) (m : String) :
    specFirstContaining data m = data.find? (fun w => wfNameIncludes w m) := by
  induction data with
  | nil => rfl
  | cons w ws ih =>
    by_cases h : wfNameIncludes w m
    · simp [specFirstContaining, h, List.find?_cons_of_pos]
    · simp [specFirstContaining, h, List.find?_cons_of_neg, ih]

/-- Claim C7: each trigger's selection (`find` on the primary marker,
`|| find` on the fallback marker) picks the first workflow in list
order whose name contains the primary marker, else the first
containing the fallback, exactly as the spec-modelled selection does;
with no match the trigger returns a `... not found` error; and on the
spec's example list the `GOVCON` marker matches `GOVCON_NIGHTLY`. -/
theorem workflow_matching_c7 :
    (∀ data : List Workflow, findWorkflowRei data = specSelectWorkflow data "REI_DISPO" "REI")
    ∧ (∀ data : List Workflow,
        findWorkflowGovCon data = specSelectWorkflow data "GOVCON" "SUBTRAP")
    ∧ (∀ (env : Env) (ts : Nat) (wOut rOut dOut : Except String Response)
        (dtOut : Except String String) (ld : Option (List Workflow)),
        envStr env "N8N_GOVCON_SUBTRAP_WEBHOOK_URL" = "" →
        stripTrailingSlash (envStr env "N8N_BASE_URL") ≠ "" →
        findWorkflowGovCon (ld.getD []) = none →
        (triggerGovConFlow env ts wOut (.ok ld) rOut dOut dtOut).2
          = .ok ⟨false, none, none, some "GovCon workflow not found"⟩)
    ∧ (∀ (env : Env) (ts : Nat) (wOut rOut dOut : Except String Response)
        (dtOut : Except String String) (ld : Option (List Workflow)),
        envStr env "N8N_REI_DISPO_WEBHOOK_URL" = "" →
        stripTrailingSlash (envStr env "N8N_BASE_URL") ≠ "" →
        findWorkflowRei (ld.getD []) = none →
        (triggerReiFlow env ts wOut (.ok ld) rOut dOut dtOut).2
          = .ok ⟨false, none, none, some "REI workflow not found"⟩)
    ∧ findWorkflowGovCon wfPair = some ⟨some "GOVCON_NIGHTLY", "wf2"⟩
    ∧ (triggerGovConFlow envBaseOnly 0 (.ok ⟨200⟩) (.ok (some wfPair)) (.ok ⟨201⟩)
        (.ok ⟨204⟩) (.ok "")).2 = .ok ⟨true, some 201, some "wf2", none⟩ := by
  refine ⟨?_, ?_, ?_, ?_, by decide, rfl⟩
  · intro data
    unfold findWorkflowRei specSelectWorkflow
    rw [← specFirstContaining_eq_find, ← specFirstContaining_eq_find]
    cases h : specFirstContaining data "REI_DISPO" <;> simp [h, Option.orElse]
  · intro data
    unfold findWorkflowGovCon specSelectWorkflow
    rw [← specFirstContaining_eq_find, ← specFirstContaining_eq_find]
    cases h : specFirstContaining data "GOVCON" <;> simp [h, Option.orElse]
  · intro env ts wOut rOut dOut dtOut ld h1 h2 hfind
    simp [triggerGovConFlow, if_pos h1, h2, hfind]
  · intro env ts wOut rOut dOut dtOut ld h1 h2 hfind
    simp [triggerReiFlow, if_pos h1, h2, hfind]

/-- Claim C7 witness: the no-match branch at a concrete list, through
the full govcon trigger. -/
theorem workflow_matching_c7_witness :
    (triggerGovConFlow envBaseOnly 0 (.ok ⟨200⟩) (.ok (some [⟨some "Unrelated", "wf1"⟩]))
        (.ok ⟨201⟩) (.ok ⟨204⟩) (.ok "")).2
      = .ok ⟨false, none, none, some "GovCon workflow not found"⟩ :=
  workflow_matching_c7.2.2.1 envBaseOnly 0 (.ok ⟨200⟩) (.ok ⟨201⟩) (.ok ⟨204⟩) (.ok "")
    (some [⟨some "Unrelated", "wf1"⟩]) (by decide) (by decide) (by decide)

theorem entry_contains_name (p : String × TriggerResult) :
    strContainsB (stringifyFailureEntry p) p.1 = true := by
  unfold stringifyFailureEntry
  apply strContainsB_app_left
  apply strContainsB_app_left
  exact strContainsB_mid "[\"" p.1 "\","

theorem stringifyTriggerResult_error (r : TriggerResult) (e : String) (h : r.error = some e) :
    strContainsB (stringifyTriggerResult r) e = true := by
  unfold stringifyTriggerResult
  apply strContainsB_app_left
  apply strContainsB_app_right
  simp only [h]
  exact strContainsB_mid ",\"error\":\"" e "\""

theorem entry_contains_error (p : String × TriggerResult) (e : String)
    (h : p.2.error = some e) : strContainsB (stringifyFailureEntry p) e = true := by
  unfold stringifyFailureEntry
  apply strContainsB_app_left
  apply strContainsB_app_right
  exact stringifyTriggerResult_error p.2 e h

theorem entriesAux_contains (fs : List (String × TriggerResult)) (p : String × TriggerResult)
    (n : String) (hp : p ∈ fs) (h : strContainsB (stringifyFailureEntry p) n = true) :
    strContainsB (stringifyEntriesAux fs) n = true := by
  induction fs with
  | nil => cases hp
  | cons q rest ih =>
    cases rest with
    | nil =>
      have : p = q := by
        cases hp with
        | head => rfl
        | tail _ hm => cases hm
      subst this
      simpa [stringifyEntriesAux] using h
    | cons q2 rest2 =>
      cases hp with
      | head =>
        show strContainsB (stringifyFailureEntry p ++ "," ++ stringifyEntriesAux (q2 :: rest2)) n
          = true
        apply strContainsB_app_left
        exact strContainsB_app_left _ _ _ h
      | tail _ hm =>
        show strContainsB (stringifyFailureEntry q ++ "," ++ stringifyEntriesAux (q2 :: rest2)) n
          = true
        apply strContainsB_app_right
        exact ih hm

theorem cycle_message_contains (fs : List (String × TriggerResult))
    (p : String × TriggerResult) (n : String) (hp : p ∈ fs)
    (h : strContainsB (stringifyFailureEntry p) n = true) :
    strContainsB ("Worker cycle had failures: " ++ stringifyFailures fs) n = true := by
  apply strContainsB_app_right
  unfold stringifyFailures
  apply strContainsB_app_left
  apply strContainsB_app_right
  exact entriesAux_contains fs p n hp h

/-- Claim C1: each cycle invokes both flow triggers and builds the report
`[rei, govcon]` from their (exception-absorbing) outcomes; exactly one
aggregated notification is passed to the notifier iff at least one
result has `ok:false`; none is sent when both are ok; and the
notification's text contains every failing flow's name and, when
present, its error payload. -/
theorem runOnce_cycle_c1 : ∀ reiOutcome govconOutcome : Except String TriggerResult,
    (runOnce reiOutcome govconOutcome).1
      = [("rei", catchTrigger reiOutcome), ("govcon", catchTrigger govconOutcome)]
    ∧ ((runOnce reiOutcome govconOutcome).2.length = 1
        ↔ ((catchTrigger reiOutcome).ok = false ∨ (catchTrigger govconOutcome).ok = false))
    ∧ ((catchTrigger reiOutcome).ok = true → (catchTrigger govconOutcome).ok = true →
        (runOnce reiOutcome govconOutcome).2 = [])
    ∧ (∀ msg : String, msg ∈ (runOnce reiOutcome govconOutcome).2 →
        ∀ (nm : String) (r : TriggerResult),
          (nm, r) ∈ ((runOnce reiOutcome govconOutcome).1.filter (fun p => !p.2.ok)) →
          strContainsB msg nm = true
          ∧ ∀ e : String, r.error = some e → strContainsB msg e = true) := by
  intro reiOutcome govconOutcome
  refine ⟨rfl, ?_, ?_, ?_⟩
  · cases hb1 : (catchTrigger reiOutcome).ok <;> cases hb2 : (catchTrigger govconOutcome).ok <;>
      simp [runOnce, hb1, hb2]
  · intro h1 h2
    simp [runOnce, h1, h2]
  · intro msg hmsg nm r hmem
    have hmem2 : (nm, r) ∈ ([("rei", catchTrigger reiOutcome),
        ("govcon", catchTrigger govconOutcome)].filter (fun p => !p.2.ok)) := hmem
    have hmsg2 : msg ∈ (if 0 < (([("rei", catchTrigger reiOutcome),
        ("govcon", catchTrigger govconOutcome)].filter (fun p => !p.2.ok)).length) then
        ["Worker cycle had failures: "
          ++ stringifyFailures ([("rei", catchTrigger reiOutcome),
              ("govcon", catchTrigger govconOutcome)].filter (fun p => !p.2.ok))]
      else []) := hmsg
    by_cases hc : 0 < (([("rei", catchTrigger reiOutcome),
        ("govcon", catchTrigger govconOutcome)].filter (fun p => !p.2.ok)).length)
    · rw [if_pos hc] at hmsg2
      have hme : msg = "Worker cycle had failures: "
          ++ stringifyFailures ([("rei", catchTrigger reiOutcome),
              ("govcon", catchTrigger govconOutcome)].filter (fun p => !p.2.ok)) := by
        simpa using hmsg2
      subst hme
      refine ⟨?_, ?_⟩
      · exact cycle_message_contains _ (nm, r) nm hmem2 (entry_contains_name (nm, r))
      · intro e he
        exact cycle_message_contains _ (nm, r) e hmem2 (entry_contains_error (nm, r) e he)
    · rw [if_neg hc] at hmsg2
      cases hmsg2

/-- Claim C1 witness: a clean cycle sends nothing; a cycle whose govcon
trigger rejected sends exactly one notification. -/
theorem runOnce_cycle_c1_witness :
    (runOnce (.ok ⟨true, some 200, none, none⟩) (.ok ⟨true, some 204, none, none⟩)).2 = []
    ∧ (runOnce (.ok ⟨true, some 200, none, none⟩) (.error "boom")).2.length = 1 := by
  constructor
  · exact (runOnce_cycle_c1 (.ok ⟨true, some 200, none, none⟩)
      (.ok ⟨true, some 204, none, none⟩)).2.2.1 rfl rfl
  · exact (runOnce_cycle_c1 (.ok ⟨true, some 200, none, none⟩)
      (.error "boom")).2.1.mpr (Or.inr rfl)

end KrizzyOps
